import Mathlib

/-!
Verification of the batcave-workflow-engine process-execution core.

The Go source is shallowly embedded: the `shell` package's `Options`,
option functions and `run` become pure Lean functions, with the
nondeterministic environment (spawn failure, the race between process
completion and context cancellation, kill failure, the wait result)
made an explicit `ExecEvents` input.  The `Debug` pipelines are embedded
likewise, with `errors.Join` modelled after the Go standard library.
-/

/-! ## shell package: exit-code sentinels (src/unnamed/part_001, lines 99-102) -/

def ExitOK : Int := 0
def ExitUnknown : Int := 232
def ExitContextCancel : Int := 231
def ExitKillFailure : Int := 230

/-! ## shell package: Options and option functions (lines 113-173) -/

/-- Embeds `exec.Cmd` as far as the runner observes it: a program name and
an ordered argument list. -/
structure Cmd where
  program : String
  args : List String
deriving Repr, DecidableEq

/-- Embeds `cmd.String()`: the program followed by the arguments, space
separated. -/
def Cmd.string (c : Cmd) : String :=
  String.intercalate " " (c.program :: c.args)

/-- Embeds the `shell.Options` struct.  The Go stream fields (`io.Reader`,
`io.Writer`) and the context are nilable handles; we model each as an
`Option Nat` handle, `none` standing for Go `nil`.  The zero value of the
Go struct (what `newOptions` starts from) is the default value here. -/
structure Options where
  dryRunEnabled : Bool := false
  stdin : Option Nat := none
  stdout : Option Nat := none
  stderr : Option Nat := none
  ctx : Option Nat := none
deriving Repr, DecidableEq

/-- Embeds `shell.OptionFunc`: Go mutates the `Options` struct in place;
we pass the state explicitly. -/
def OptionFunc : Type := Options → Options

/-- Embeds `(*Options).apply`: fold the option functions over the struct
in order. -/
def Options.apply (o : Options) (fs : List OptionFunc) : Options :=
  fs.foldl (fun acc f => f acc) o

/-- Embeds `shell.newOptions`: start from the zero value and apply. -/
def newOptions (fs : List OptionFunc) : Options :=
  Options.apply {} fs

/-- Embeds `shell.WithDryRun`. -/
def WithDryRun (enabled : Bool) : OptionFunc :=
  fun o => { o with dryRunEnabled := enabled }

/-- Embeds the `shell` package's `WithIO`, which sets stdin, stdout and
stderr together. -/
def WithIOStreams (stdin : Option Nat) (stdout : Option Nat) (stderr : Option Nat) :
    OptionFunc :=
  fun o => { o with stdin := stdin, stdout := stdout, stderr := stderr }

/-- Embeds `shell.WithStdin`. -/
def WithStdin (r : Option Nat) : OptionFunc :=
  fun o => { o with stdin := r }

/-- Embeds `shell.WithStdout`. -/
def WithStdout (w : Option Nat) : OptionFunc :=
  fun o => { o with stdout := w }

/-- Embeds `shell.WithStderr`. -/
def WithStderr (w : Option Nat) : OptionFunc :=
  fun o => { o with stderr := w }

/-! ## shell package: the run function (lines 182-222) -/

/-- Outcome of `cmd.Wait()` in the goroutine: an `*exec.ExitError`
carrying the child's exit code, some other non-nil error, or nil. -/
inductive WaitResult where
  | exitErr (code : Int)
  | otherErr
  | ok
deriving Repr, DecidableEq

/-- The nondeterministic environment of one `run` call: whether
`cmd.Start()` fails, whether the `select` takes the `ctx.Done()` branch
(cancellation fires before the wait goroutine signals completion),
whether `cmd.Process.Kill()` fails, and the result `cmd.Wait()` delivers
on natural completion. -/
structure ExecEvents where
  startError : Bool
  cancelFires : Bool
  killError : Bool
  waitResult : WaitResult
deriving Repr, DecidableEq

/-- What one `run` call produces: the returned exit code, whether
`cmd.Start()` was reached, and the `slog.Info("shell exec", ...)` record
(dry-run flag and command string). -/
structure RunResult where
  code : Int
  startAttempted : Bool
  log : List (Bool × String)
deriving Repr, DecidableEq

/-- Embeds `shell.run`.  The Go function logs the command first, returns
`ExitOK` on dry run without spawning, returns `ExitUnknown` when
`cmd.Start()` fails, then races `ctx.Done()` against the wait goroutine:
on cancellation it kills the process (`ExitKillFailure` if the kill
errors, `ExitContextCancel` otherwise), and on natural completion it
propagates an `*exec.ExitError`'s code, maps any other wait error to
`ExitUnknown`, and otherwise returns `ExitOK`.  A nil context is
replaced by `context.Background()`, whose done channel never fires, so
the cancellation branch needs `o.ctx` to be set. -/
def run (cmd : Cmd) (o : Options) (ev : ExecEvents) : RunResult :=
  let log := [(o.dryRunEnabled, cmd.string)]
  if o.dryRunEnabled then
    { code := ExitOK, startAttempted := false, log := log }
  else if ev.startError then
    { code := ExitUnknown, startAttempted := true, log := log }
  else if o.ctx.isSome && ev.cancelFires then
    if ev.killError then
      { code := ExitKillFailure, startAttempted := true, log := log }
    else
      { code := ExitContextCancel, startAttempted := true, log := log }
  else
    match ev.waitResult with
    | .exitErr c => { code := c, startAttempted := true, log := log }
    | .otherErr => { code := ExitUnknown, startAttempted := true, log := log }
    | .ok => { code := ExitOK, startAttempted := true, log := log }

/-! ## The Debug pipeline (src/pkg/pipelines/debug.go)

Errors are modelled as `Option String`: `none` is Go `nil`, `some m` a
non-nil error with message `m`.
-/

/-- Embeds `errors.Join` from the Go standard library: nil when every
argument is nil, otherwise a single error whose message is the non-nil
arguments' messages in order, separated by newlines. -/
def errorsJoin (errs : List (Option String)) : Option String :=
  let msgs := errs.filterMap id
  if msgs.isEmpty then none else some (String.intercalate "\n" msgs)

/-- Modelled from the spec: the Command Builder terminal
`RunLogErrorAsWarning`, whose source is not under src/ (only its callers
in `debug.go` are).  Per the spec it "suppresses propagation of a
non-success Exit Outcome, instead recording it as a warning-level event
and returning no error to the caller".  It takes the underlying exit
code and yields the error surfaced to the caller together with the
warning-level log records emitted. -/
def RunLogErrorAsWarning (exitCode : Int) : Option String × List String :=
  (none,
   if exitCode = ExitOK then []
   else ["warning: command failed with exit code " ++ toString exitCode])

/-- Outcome of one `Debug.Run` call: the Go code either calls
`os.Exit(1)` (when `os.Getwd` or `os.MkdirAll` fail) or returns an
error value. -/
inductive DebugRunOutcome where
  | exited (code : Nat)
  | returned (err : Option String)
deriving Repr, DecidableEq

/-- Embeds `Debug.Run` from `debug.go`.  The three mandatory command
invocations (Grype version, Syft version, Syft ScanImage) go through the
Command Builder's terminal `Run`, which is not under src/; per the spec
it delegates to the Process Runner, so each mandatory step's resulting
error is an input here (`none` for success).  `Debug.Run` joins the
three mandatory errors with `errors.Join`, then runs the optional
Podman and Docker version commands through `RunLogErrorAsWarning`
(their exit codes are the last two inputs), and returns the joined
error; `os.Getwd` / `os.MkdirAll` failure instead exits the process
with code 1.  The second component collects the optional steps'
warning logs. -/
def DebugRun (getwdOk : Bool) (mkdirOk : Bool)
    (grypeVersionErr syftVersionErr syftScanErr : Option String)
    (podmanCode dockerCode : Int) : DebugRunOutcome × List String :=
  if !getwdOk then (.exited 1, [])
  else if !mkdirOk then (.exited 1, [])
  else
    let errs := errorsJoin [grypeVersionErr, syftVersionErr, syftScanErr]
    let podman := RunLogErrorAsWarning podmanCode
    let docker := RunLogErrorAsWarning dockerCode
    (.returned errs, podman.2 ++ docker.2)

/-! ## The dagger-based Debug pipeline (src/unnamed/part_000) -/

/-- Embeds the report format string of `Debug.Execute`:
`fmt.Sprintf("debug output:\n%s\nsystem information:\n%s\n", ...)`. -/
def debugReport (debugOutput systemInfo : String) : String :=
  "debug output:\n" ++ debugOutput ++ "\nsystem information:\n" ++ systemInfo ++ "\n"

/-- Modelled from the spec: `jobs.RunDebug` / `jobs.RunDebugSysInfo`
(package `jobs` is not under src/) are "two independent concurrent
data-producing calls": each either produces a textual result or fails
with an error, so a job outcome is `Except String String`. -/
def JobOutcome : Type := Except String String

/-- The string a job's goroutine leaves in its result variable: the
produced text on success; on failure the variable keeps its zero value
`""` (the data-producing call yields no text). -/
def jobContribution : JobOutcome → String
  | .ok s => s
  | .error _ => ""

/-- The error a job's closure hands to the errgroup. -/
def jobErr : JobOutcome → Option String
  | .ok _ => none
  | .error e => some e

/-- Embeds `errgroup.Wait`: it returns the first non-nil error among the
goroutines, in completion order.  `firstDone` says which of the two jobs
completed first. -/
def groupWait (job1 job2 : JobOutcome) (firstDone : Bool) : Option String :=
  if firstDone then (jobErr job1).orElse fun _ => jobErr job2
  else (jobErr job2).orElse fun _ => jobErr job1

/-- Embeds `Debug.Execute` from `src/unnamed/part_000`: spawn the two
jobs, wait for both, then unconditionally format the report from the
two result variables and write it to the configured stdout writer, and
finally return the errgroup's error.  The first component is the string
written to stdout; the second is the returned error. -/
def DebugExecute (job1 job2 : JobOutcome) (firstDone : Bool) :
    String × Option String :=
  let debugOutput := jobContribution job1
  let systemInfo := jobContribution job2
  let err := groupWait job1 job2 firstDone
  (debugReport debugOutput systemInfo, err)

/-! ## Claims about shell.run -/

/-- C1: when the cancellation token is set and fires before the child
process terminates naturally (the select takes the `ctx.Done()` branch
of a non-dry-run invocation whose spawn succeeded), `shell.run` returns
the kill-failure sentinel 230 if the forced kill fails and the
context-cancelled sentinel 231 if it succeeds, regardless of any exit
code the process produced (`ev.waitResult` is arbitrary). -/
theorem run_cancellation_outcome (cmd : Cmd) (o : Options) (ev : ExecEvents)
    (hdry : o.dryRunEnabled = false) (hstart : ev.startError = false)
    (hctx : o.ctx.isSome = true) (hcancel : ev.cancelFires = true) :
    (run cmd o ev).code = if ev.killError then ExitKillFailure else ExitContextCancel := by
  cases hk : ev.killError <;>
    simp [run, hdry, hstart, hctx, hcancel, hk]

/-- Witness for C1: a concrete cancelled invocation returns 231 when the
kill succeeds and 230 when it fails, even though the process also
produced exit code 7. -/
theorem run_cancellation_outcome_witness :
    (run ⟨"sleep", ["10"]⟩ { dryRunEnabled := false, ctx := some 0 }
        { startError := false, cancelFires := true, killError := false,
          waitResult := .exitErr 7 }).code = 231
    ∧ (run ⟨"sleep", ["10"]⟩ { dryRunEnabled := false, ctx := some 0 }
        { startError := false, cancelFires := true, killError := true,
          waitResult := .exitErr 7 }).code = 230 := by
  constructor
  · have h := run_cancellation_outcome ⟨"sleep", ["10"]⟩
      { dryRunEnabled := false, ctx := some 0 }
      { startError := false, cancelFires := true, killError := false,
        waitResult := .exitErr 7 } rfl rfl rfl rfl
    simpa [ExitContextCancel] using h
  · have h := run_cancellation_outcome ⟨"sleep", ["10"]⟩
      { dryRunEnabled := false, ctx := some 0 }
      { startError := false, cancelFires := true, killError := true,
        waitResult := .exitErr 7 } rfl rfl rfl rfl
    simpa [ExitKillFailure] using h

/-- C2: when the spawned process terminates before cancellation fires
(the select takes the done-channel branch), `shell.run` propagates the
child's exit code when the wait error is an `*exec.ExitError`, returns 0
when the wait completes with no error, and returns the unknown-failure
sentinel 232 when the wait returns a non-exit-code error. -/
theorem run_natural_exit (cmd : Cmd) (o : Options) (ev : ExecEvents)
    (hdry : o.dryRunEnabled = false) (hstart : ev.startError = false)
    (hrace : (o.ctx.isSome && ev.cancelFires) = false) :
    (run cmd o ev).code =
      match ev.waitResult with
      | .exitErr c => c
      | .otherErr => ExitUnknown
      | .ok => ExitOK := by
  cases hw : ev.waitResult <;>
    simp [run, hdry, hstart, hrace, hw]

/-- Witness for C2: a concrete completed invocation returns the child's
own exit code 3, and with a clean wait returns 0, and with an
unclassifiable wait error returns 232. -/
theorem run_natural_exit_witness :
    (run ⟨"grype", ["version"]⟩ { dryRunEnabled := false }
        { startError := false, cancelFires := false, killError := false,
          waitResult := .exitErr 3 }).code = 3
    ∧ (run ⟨"grype", ["version"]⟩ { dryRunEnabled := false }
        { startError := false, cancelFires := false, killError := false,
          waitResult := .ok }).code = 0
    ∧ (run ⟨"grype", ["version"]⟩ { dryRunEnabled := false }
        { startError := false, cancelFires := false, killError := false,
          waitResult := .otherErr }).code = 232 := by
  refine ⟨?_, ?_, ?_⟩
  · have h := run_natural_exit ⟨"grype", ["version"]⟩ { dryRunEnabled := false }
      { startError := false, cancelFires := false, killError := false,
        waitResult := .exitErr 3 } rfl rfl rfl
    simpa using h
  · have h := run_natural_exit ⟨"grype", ["version"]⟩ { dryRunEnabled := false }
      { startError := false, cancelFires := false, killError := false,
        waitResult := .ok } rfl rfl rfl
    simpa [ExitOK] using h
  · have h := run_natural_exit ⟨"grype", ["version"]⟩ { dryRunEnabled := false }
      { startError := false, cancelFires := false, killError := false,
        waitResult := .otherErr } rfl rfl rfl
    simpa [ExitUnknown] using h

/-- C3: a dry-run invocation returns the success sentinel 0 without
`cmd.Start()` ever being reached, for any program/argument combination
and any environment events (spawn failure, cancellation already fired,
kill failure, any wait result are all arbitrary), and the command that
would have run is still recorded in the log side channel. -/
theorem run_dry_run (cmd : Cmd) (o : Options) (ev : ExecEvents)
    (hdry : o.dryRunEnabled = true) :
    (run cmd o ev).code = 0
    ∧ (run cmd o ev).startAttempted = false
    ∧ (run cmd o ev).log = [(true, cmd.string)] := by
  simp [run, hdry, ExitOK]

/-- Witness for C3: a dry run of a nonexistent binary with an
already-fired cancellation token returns 0, starts nothing, and logs
the command string. -/
theorem run_dry_run_witness :
    (run ⟨"no-such-binary", ["--flag"]⟩ { dryRunEnabled := true, ctx := some 0 }
        { startError := true, cancelFires := true, killError := true,
          waitResult := .exitErr 9 }).code = 0
    ∧ (run ⟨"no-such-binary", ["--flag"]⟩ { dryRunEnabled := true, ctx := some 0 }
        { startError := true, cancelFires := true, killError := true,
          waitResult := .exitErr 9 }).startAttempted = false
    ∧ (run ⟨"no-such-binary", ["--flag"]⟩ { dryRunEnabled := true, ctx := some 0 }
        { startError := true, cancelFires := true, killError := true,
          waitResult := .exitErr 9 }).log = [(true, "no-such-binary --flag")] := by
  have h := run_dry_run ⟨"no-such-binary", ["--flag"]⟩
    { dryRunEnabled := true, ctx := some 0 }
    { startError := true, cancelFires := true, killError := true,
      waitResult := .exitErr 9 } rfl
  exact ⟨h.1, h.2.1, by rw [h.2.2]; rfl⟩

/-- C4: for every invocation, option configuration and environment, the
code returned by `shell.run` is 0, 230, 231, 232, or the child
process's own exit code passed through verbatim (the wait result was an
`*exec.ExitError` carrying exactly the returned code); no other value
is possible. -/
theorem run_exit_taxonomy (cmd : Cmd) (o : Options) (ev : ExecEvents) :
    (run cmd o ev).code = ExitOK
    ∨ (run cmd o ev).code = ExitKillFailure
    ∨ (run cmd o ev).code = ExitContextCancel
    ∨ (run cmd o ev).code = ExitUnknown
    ∨ ev.waitResult = WaitResult.exitErr ((run cmd o ev).code) := by
  rcases ev with ⟨se, cf, ke, wr⟩
  rcases o with ⟨dr, i, w, e, cx⟩
  cases dr <;> cases se <;> cases cf <;> cases ke <;> cases wr <;> cases cx <;>
    simp [run]

/-- C6: a non-dry-run invocation whose spawn (`cmd.Start()`) fails
returns the unknown-failure sentinel 232. -/
theorem run_spawn_failure (cmd : Cmd) (o : Options) (ev : ExecEvents)
    (hdry : o.dryRunEnabled = false) (hstart : ev.startError = true) :
    (run cmd o ev).code = 232 := by
  simp [run, hdry, hstart, ExitUnknown]

/-- Witness for C6: a concrete invocation of a missing binary returns
232. -/
theorem run_spawn_failure_witness :
    (run ⟨"no-such-binary", []⟩ { dryRunEnabled := false }
        { startError := true, cancelFires := false, killError := false,
          waitResult := .ok }).code = 232 :=
  run_spawn_failure ⟨"no-such-binary", []⟩ { dryRunEnabled := false }
    { startError := true, cancelFires := false, killError := false,
      waitResult := .ok } rfl rfl

/-! ## Claim about the option functions -/

/-- C7: applying the same option function twice in a sequence yields the
same final `Options` value as applying only the later one (last-write-
wins, no error), and each option function leaves every field outside its
own concern unchanged: the dry-run setter touches no stream and no
context, the I/O-triple setter touches neither the dry-run flag nor the
context, and each single-stream setter touches only its own stream
field. -/
theorem option_funcs_last_write_wins_and_independent
    (o : Options) (a b : Bool) (i i' w w' e e' : Option Nat)
    (r r' u u' v v' : Option Nat) :
    (Options.apply o [WithDryRun a, WithDryRun b] = Options.apply o [WithDryRun b]
      ∧ Options.apply o [WithIOStreams i w e, WithIOStreams i' w' e']
          = Options.apply o [WithIOStreams i' w' e']
      ∧ Options.apply o [WithStdin r, WithStdin r'] = Options.apply o [WithStdin r']
      ∧ Options.apply o [WithStdout u, WithStdout u'] = Options.apply o [WithStdout u']
      ∧ Options.apply o [WithStderr v, WithStderr v'] = Options.apply o [WithStderr v'])
    ∧ ((WithDryRun a o).stdin = o.stdin ∧ (WithDryRun a o).stdout = o.stdout
      ∧ (WithDryRun a o).stderr = o.stderr ∧ (WithDryRun a o).ctx = o.ctx)
    ∧ ((WithIOStreams i w e o).dryRunEnabled = o.dryRunEnabled
      ∧ (WithIOStreams i w e o).ctx = o.ctx)
    ∧ ((WithStdin r o).dryRunEnabled = o.dryRunEnabled
      ∧ (WithStdin r o).stdout = o.stdout
      ∧ (WithStdin r o).stderr = o.stderr ∧ (WithStdin r o).ctx = o.ctx)
    ∧ ((WithStdout u o).dryRunEnabled = o.dryRunEnabled
      ∧ (WithStdout u o).stdin = o.stdin
      ∧ (WithStdout u o).stderr = o.stderr ∧ (WithStdout u o).ctx = o.ctx)
    ∧ ((WithStderr v o).dryRunEnabled = o.dryRunEnabled
      ∧ (WithStderr v o).stdin = o.stdin
      ∧ (WithStderr v o).stdout = o.stdout ∧ (WithStderr v o).ctx = o.ctx) :=
  ⟨⟨rfl, rfl, rfl, rfl, rfl⟩, ⟨rfl, rfl, rfl, rfl⟩, ⟨rfl, rfl⟩,
    ⟨rfl, rfl, rfl, rfl⟩, ⟨rfl, rfl, rfl, rfl⟩, ⟨rfl, rfl, rfl, rfl⟩⟩

/-! ## Claims about the Debug pipelines -/

/-- C5: `Debug.Run` (when the working-directory setup succeeds) returns
exactly the `errors.Join` of the three mandatory command errors in
source order; the returned value ignores the optional Podman/Docker
exit codes entirely; the joined error is nil exactly when all three
mandatory steps succeed; and any non-nil joined error's message is
precisely the failing steps' messages in source order joined by
newlines, so none is dropped. -/
theorem debug_run_mandatory_aggregation
    (g s c : Option String) (pc dc pc' dc' : Int) :
    (DebugRun true true g s c pc dc).1
        = DebugRunOutcome.returned (errorsJoin [g, s, c])
    ∧ (DebugRun true true g s c pc dc).1 = (DebugRun true true g s c pc' dc').1
    ∧ (errorsJoin [g, s, c] = none ↔ (g = none ∧ s = none ∧ c = none))
    ∧ (∀ m, errorsJoin [g, s, c] = some m →
        m = String.intercalate "\n" ([g, s, c].filterMap id)) := by
  refine ⟨rfl, rfl, ?_, ?_⟩
  · cases g <;> cases s <;> cases c <;> simp [errorsJoin]
  · intro m hm
    cases g <;> cases s <;> cases c <;> simp_all [errorsJoin]

/-- Witness for C5: with the Grype version and Syft scan steps failing
and the Syft version step succeeding, the pipeline returns the two
failure messages in source order joined by a newline, under either
optional-step outcome. -/
theorem debug_run_mandatory_aggregation_witness :
    (DebugRun true true (some "grype failed") none (some "syft scan failed") 232 0).1
      = DebugRunOutcome.returned (some "grype failed\nsyft scan failed")
    ∧ "grype failed\nsyft scan failed"
      = String.intercalate "\n"
          ([some "grype failed", none, some "syft scan failed"].filterMap id) := by
  have h := debug_run_mandatory_aggregation
    (some "grype failed") none (some "syft scan failed") 232 0 0 1
  refine ⟨?_, h.2.2.2 "grype failed\nsyft scan failed" (by rfl)⟩
  rw [h.1]; rfl

/-- C8: the `RunLogErrorAsWarning` terminal returns no error to its
caller for every underlying exit code (232 included), and records
exactly one warning-level log event when the exit code is non-zero and
none when it is zero. -/
theorem run_log_error_as_warning_no_error (code : Int) :
    (RunLogErrorAsWarning code).1 = none
    ∧ (RunLogErrorAsWarning code).2.length = (if code = 0 then 0 else 1) := by
  by_cases h : code = 0 <;> simp [RunLogErrorAsWarning, ExitOK, h]

/-- C9: when the two concurrent debug jobs return strings A and B,
`Debug.Execute` writes exactly
`"debug output:\n" ++ A ++ "\nsystem information:\n" ++ B ++ "\n"` to
its stdout writer and returns no error, whichever job completes
first. -/
theorem debug_execute_report (A B : String) (firstDone : Bool) :
    DebugExecute (Except.ok A) (Except.ok B) firstDone
      = ("debug output:\n" ++ A ++ "\nsystem information:\n" ++ B ++ "\n", none) := by
  cases firstDone <;>
    simp [DebugExecute, debugReport, jobContribution, groupWait, jobErr, Option.orElse]

/-- C10: when either debug job fails, `Debug.Execute` still produces the
fully formatted report on its stdout writer — built from the result
variables, a failed job contributing the empty string — and returns a
non-nil error, for either completion order. -/
theorem debug_execute_error_path (job1 job2 : JobOutcome) (firstDone : Bool)
    (h : (∃ e, job1 = Except.error e) ∨ (∃ e, job2 = Except.error e)) :
    (DebugExecute job1 job2 firstDone).1
      = debugReport (jobContribution job1) (jobContribution job2)
    ∧ (DebugExecute job1 job2 firstDone).2 ≠ none
    ∧ (∀ e, job1 = Except.error e → jobContribution job1 = "")
    ∧ (∀ e, job2 = Except.error e → jobContribution job2 = "") := by
  refine ⟨rfl, ?_, ?_, ?_⟩
  · rcases job1 with e1 | s1 <;> rcases job2 with e2 | s2 <;> cases firstDone <;>
      simp_all [DebugExecute, groupWait, jobErr, Option.orElse]
  · intro e he; subst he; rfl
  · intro e he; subst he; rfl

/-- Witness for C10: with the first job failing and the second
returning "B", the report carries an empty debug-output section and the
returned error is non-nil. -/
theorem debug_execute_error_path_witness :
    (DebugExecute (Except.error "boom") (Except.ok "B") true).1
      = "debug output:\n\nsystem information:\nB\n"
    ∧ (DebugExecute (Except.error "boom") (Except.ok "B") true).2 ≠ none := by
  have h := debug_execute_error_path (Except.error "boom") (Except.ok "B") true
    (Or.inl ⟨"boom", rfl⟩)
  refine ⟨?_, h.2.1⟩
  rw [h.1]; rfl
